import Mathlib

/-!
Shallow embedding of the Drive content-search subsystem of
`src/tools/drive_tools.py` (google-workspace-mcp), together with proofs
of the behavioural properties of its match finder, snippet builder and
the two content-search tools.

Text is modelled as `List Char`; Python string slicing, `str.find`,
`str.lower` (ASCII case folding) and list `append` loops are translated
directly.  Remote calls (credential acquisition, service construction,
the index query, per-file content download) are modelled by oracles
giving each call's outcome, with Python exceptions as an explicit
`PyError` value: a raised exception that escapes the tool is an
`Except.error`, a returned JSON payload an `Except.ok`.
-/

set_option autoImplicit false

namespace DriveSearch

/-- Whitespace characters stripped by Python's `str.strip()` (ASCII range);
`s.strip()` is falsy exactly when every character of `s` is such a character. -/
def pyIsSpace (c : Char) : Bool :=
  c = ' ' || c = '\t' || c = '\n' || c = '\r' || c = '\x0b' || c = '\x0c'

/-- The test `not search_term.strip()` of `search_drive_by_content` (line 114):
true iff the string is empty or all-whitespace. -/
def stripIsEmpty (s : String) : Bool :=
  s.toList.all pyIsSpace

/-- Scan positions `pos, pos+1, ...` of `rest` for the first occurrence of
`sub`; helper for `pyFind`. -/
def scanFind (sub : List Char) : List Char → Nat → Option Nat
  | [], pos => if sub.isPrefixOf ([] : List Char) then some pos else none
  | c :: t, pos => if sub.isPrefixOf (c :: t) then some pos else scanFind sub t (pos + 1)

/-- Python `content.find(sub, start)`: the least position `p ≥ start` at which
`sub` occurs in `content` (`none` models the return value `-1`).  For the empty
`sub`, Python returns `start` whenever `start ≤ len(content)`. -/
def pyFind (content sub : List Char) (start : Nat) : Option Nat :=
  if start ≤ content.length then scanFind sub (content.drop start) start else none

/-- The literal-search `while True` loop of `_find_content_matches`
(lines 319-325): repeatedly `find` from `start`, record
`(pos, pos + len(search_term))`, continue from `pos + 1`.  `fuel` bounds the
number of iterations; `findLiteralMatches` supplies enough fuel for the loop
to run to its `break`. -/
def literalLoopF (contentText searchText : List Char) (termLen : Nat) :
    Nat → Nat → List (Nat × Nat)
  | _, 0 => []
  | start, fuel + 1 =>
    match pyFind contentText searchText start with
    | none => []
    | some pos => (pos, pos + termLen) :: literalLoopF contentText searchText termLen (pos + 1) fuel

/-- The non-regex branch of `_find_content_matches` (lines 315-327): lower-case
both sides when not case sensitive (ASCII case folding, which preserves
length), then run the forward-search loop.  The recorded span length is the
ORIGINAL term's length (`pos + len(search_term)`). -/
def findLiteralMatches (content searchTerm : List Char) (caseSensitive : Bool) :
    List (Nat × Nat) :=
  let searchText := if caseSensitive then searchTerm else searchTerm.map Char.toLower
  let contentText := if caseSensitive then content else content.map Char.toLower
  literalLoopF contentText searchText searchTerm.length 0 (contentText.length + 2)

/-- Modelled from the spec: the regex engine (Python's `re` module, external to
this repository) as the pair of capabilities `_find_content_matches` consumes —
whether `re.compile(term)` succeeds (pattern validity does not depend on the
`IGNORECASE` flag), and the span list `finditer` yields for a valid pattern
given the case-sensitivity flag and the content. -/
structure RegexEngine where
  compiles : List Char → Bool
  findAll : List Char → Bool → List Char → List (Nat × Nat)

/-- `_find_content_matches(content, search_term, case_sensitive, use_regex)`
(lines 297-327), parametric in the regex engine.  In regex mode a pattern that
fails to compile falls back to the literal branch: the source's
`except re.error` handler re-invokes the function with `use_regex=False`
(lines 312-314), which is exactly `findLiteralMatches`. -/
def findContentMatches (eng : RegexEngine) (content searchTerm : List Char)
    (caseSensitive useRegex : Bool) : List (Nat × Nat) :=
  if useRegex then
    if eng.compiles searchTerm then
      eng.findAll searchTerm caseSensitive content
    else
      findLiteralMatches content searchTerm caseSensitive
  else
    findLiteralMatches content searchTerm caseSensitive

/-- Modelled from the spec: a concrete `RegexEngine` instance capturing the one
fact about `re.compile` validity the development needs — a pattern containing
an opening square bracket with no closing bracket (an unterminated character
class, such as `"[invalid"`) raises `re.error`, while bracket-free patterns
compile.  Its `findAll` is irrelevant to every use below (all concrete
evaluations either take the literal branch or an invalid pattern). -/
def pyRegexModel : RegexEngine where
  compiles := fun p => !(p.contains '[' && !(p.contains ']'))
  findAll := fun _ _ _ => []

/-- One element of the list built by `_generate_search_snippets`
(lines 351-357): the window text, the match position translated to
window-relative coordinates (kept as integers: Python's subtraction is over
ℤ), and the original absolute offsets. -/
structure Snippet where
  text : List Char
  match_start : Int
  match_end : Int
  original_start : Nat
  original_end : Nat
  deriving Repr, DecidableEq

/-- The snippet computed for one span `(start, end)` by the body of the `for`
loop of `_generate_search_snippets` (lines 339-357).  `snippet_start` is
Python's `max(0, start - half_length)`, which over ℕ is truncated subtraction;
`snippet_end` is `min(len(content), end + half_length)`; the slice
`content[snippet_start:snippet_end]` is `drop`-then-`take`. -/
def snippetFor (content : List Char) (halfLength : Nat) (m : Nat × Nat) : Snippet :=
  let snippetStart : Nat := m.1 - halfLength
  let snippetEnd : Nat := min content.length (m.2 + halfLength)
  { text := (content.drop snippetStart).take (snippetEnd - snippetStart)
    match_start := (m.1 : Int) - (snippetStart : Int)
    match_end := (m.2 : Int) - (snippetStart : Int)
    original_start := m.1
    original_end := m.2 }

/-- `_generate_search_snippets(content, matches, snippet_length)`
(lines 329-359): `half_length = snippet_length // 2`, then the `for` loop
appends one snippet per match to the `snippets` list, modelled as a left fold
over the spans. -/
def generateSearchSnippets (content : List Char) (spans : List (Nat × Nat))
    (snippetLength : Nat) : List Snippet :=
  let halfLength := snippetLength / 2
  spans.foldl (fun acc m => acc ++ [snippetFor content halfLength m]) []

/-- A Python exception as seen at a tool's `try`/`except HttpError` boundary:
either an `HttpError` (the only class that boundary catches) or any other
exception. -/
inductive PyError where
  | httpError (msg : String)
  | otherError (msg : String)
  deriving Repr, DecidableEq

/-- Whether the exception is an `HttpError`, i.e. would be caught by the tool
boundary's `except HttpError` clause. -/
def PyError.isHttp : PyError → Bool
  | .httpError _ => true
  | .otherError _ => false

/-- The outcome is a normal return or a caught-able (`HttpError`) exception —
never an exception that would escape this tool's `except` clause. -/
def okOrHttp {α : Type} : Except PyError α → Bool
  | .ok _ => true
  | .error e => e.isHttp

/-- The `except HttpError as error` handler shared by the tools (lines 189-190
and 405-406): an `HttpError` becomes the uniform `{"error": ...}` payload; any
other exception propagates (it is re-raised past the tool). -/
def catchHttp {ρ : Type} (mkError : String → ρ) : PyError → Except PyError ρ
  | .httpError m => .ok (mkError ("An error occurred: " ++ m))
  | .otherError m => .error (.otherError m)

/-- The dictionary returned by `_extract_file_content_for_search`
(lines 192-237): `has_matches`, the snippet list, and `match_count`. -/
structure ContentInfo where
  has_matches : Bool
  snippets : List Snippet
  match_count : Nat
  deriving Repr, DecidableEq

/-- The zero result `{"has_matches": False, "snippets": [], "match_count": 0}`
returned on missing content, no matches, or any caught extraction error. -/
def zeroContentInfo : ContentInfo := ⟨false, [], 0⟩

/-- The mime-type dispatch of `_extract_file_content_for_search`
(lines 206-215): content is fetched only when the declared mime-type contains
`"google-apps"`, equals `application/pdf`, or starts with `text/`; for any
other type `content` stays `None`. -/
def isSupportedMime (mime : String) : Bool :=
  (pyFind mime.toList "google-apps".toList 0).isSome
    || mime = "application/pdf"
    || "text/".toList.isPrefixOf mime.toList

/-- `_extract_file_content_for_search` (lines 192-237) as a function of the
extraction attempt's outcome.  `fetch` is what the selected extraction helper
produced for this file: `.ok none` models a helper that returned `None`
(all three helpers catch their own errors and return `None`), `.ok (some c)`
a successful extraction, and `.error e` an exception reaching the function's
own `except Exception` handler, which logs and returns the zero result.
Python's `if not content` (line 217) is true both for `None` and for `""`. -/
def extractFileContentForSearch (eng : RegexEngine) (mime : String)
    (fetch : Except PyError (Option (List Char))) (searchTerm : List Char)
    (caseSensitive useRegex : Bool) (snippetLength : Nat) : ContentInfo :=
  match (if isSupportedMime mime then fetch else .ok none) with
  | .error _ => zeroContentInfo
  | .ok none => zeroContentInfo
  | .ok (some content) =>
    if content.isEmpty then zeroContentInfo
    else
      let found := findContentMatches eng content searchTerm caseSensitive useRegex
      if found.isEmpty then zeroContentInfo
      else ⟨true, generateSearchSnippets content found snippetLength, found.length⟩

/-- Candidate-document metadata as returned by the index query
(`files(id, name, mimeType, createdTime, modifiedTime, size, parents)`,
line 155): the optional fields model `file.get(...)` possibly absent. -/
structure FileMeta where
  id : String
  name : String
  mimeType : String
  createdTime : Option String
  modifiedTime : Option String
  size : Option String
  parents : List String
  deriving Repr, DecidableEq

/-- One entry of the `search_results` list assembled by
`search_drive_by_content` (lines 170-180). -/
structure ResultEntry where
  id : String
  name : String
  mimeType : String
  createdTime : Option String
  modifiedTime : Option String
  size : Option String
  parents : List String
  snippets : List Snippet
  match_count : Nat
  deriving Repr, DecidableEq

/-- The JSON payload a content-search tool serialises with `json.dumps` and
returns.  `errorPayload` is the uniform `{"error": ...}` shape;
`searchResults` the success schema of `search_drive_by_content`
(lines 182-187); `fileResult` the success schema of
`search_within_file_content` (lines 391-401).  Serialisation itself is a total
function of the payload, so the payload is the model of the returned string. -/
inductive ToolResponse where
  | errorPayload (msg : String)
  | searchResults (results : List ResultEntry) (totalMatches : Nat)
      (searchTerm : String) (query : String)
  | fileResult (fileId fileName mimeType : String)
      (createdTime modifiedTime size : Option String)
      (hasMatches : Bool) (matchCount : Nat) (snippets : List Snippet)
  deriving Repr, DecidableEq

/-- A remote call issued by `search_drive_by_content`, in issue order:
credential acquisition, Drive service construction, the one index query
(`files().list`), and the per-candidate content fetch. -/
inductive RemoteCall where
  | getCredentials
  | buildService
  | indexQuery (q : String) (pageSize : Nat)
  | fileContentFetch (fileId : String)
  deriving Repr, DecidableEq

/-- The `q=` string built by lines 127-149: the full-text part (the term
as-is in regex or case-sensitive mode, lowercased otherwise), an
`or`-combination of mime-type filters when `file_types` is non-empty, an
optional parent-folder filter, all joined with `" and "`.  Python truthiness:
an empty list and an empty folder id both skip their part. -/
def buildQuery (searchTerm : String) (folderId : Option String)
    (fileTypes : List String) (caseSensitive useRegex : Bool) : String :=
  let fullTextPart :=
    if useRegex then "fullText contains '" ++ searchTerm ++ "'"
    else if caseSensitive then "fullText contains '" ++ searchTerm ++ "'"
    else "fullText contains '" ++ String.mk (searchTerm.toList.map Char.toLower) ++ "'"
  let typeParts :=
    if fileTypes.isEmpty then []
    else ["(" ++ String.intercalate " or "
            (fileTypes.map (fun t => "mimeType = '" ++ t ++ "'")) ++ ")"]
  let folderParts :=
    match folderId with
    | none => []
    | some fid => if fid.isEmpty then [] else ["'" ++ fid ++ "' in parents"]
  String.intercalate " and " ([fullTextPart] ++ typeParts ++ folderParts)

/-- Outcomes of the remote world for one `search_drive_by_content` invocation:
credential acquisition (line 123, outside the `try`), `build` (line 125),
the index query (lines 151-158), and the per-file extraction attempt keyed by
file id (the content download plus decode performed by the extraction
helpers). -/
structure DriveOracle where
  credsResult : Except PyError Unit
  buildResult : Except PyError Unit
  listResult : Except PyError (List FileMeta)
  fetchResult : String → Except PyError (Option (List Char))

/-- The `for file in files` loop of `search_drive_by_content`
(lines 162-180): candidates are processed sequentially in index order, and a
candidate is appended to `search_results` exactly when its `ContentInfo` has
`has_matches` set. -/
def processFiles (eng : RegexEngine) (fetch : String → Except PyError (Option (List Char)))
    (searchTerm : List Char) (caseSensitive useRegex : Bool) (snippetLength : Nat) :
    List FileMeta → List ResultEntry
  | [] => []
  | f :: rest =>
    let info := extractFileContentForSearch eng f.mimeType (fetch f.id)
      searchTerm caseSensitive useRegex snippetLength
    (if info.has_matches then
      [⟨f.id, f.name, f.mimeType, f.createdTime, f.modifiedTime, f.size, f.parents,
        info.snippets, info.match_count⟩]
     else []) ++
      processFiles eng fetch searchTerm caseSensitive useRegex snippetLength rest

/-- `search_drive_by_content` (lines 91-190) over a `DriveOracle`, returning
the tool's outcome (a raised exception or a returned payload) together with
the trace of remote calls issued.  `maxResults` and `fileTypes` stand for the
values after the config-default resolution of lines 117-121, which involves no
remote call.  The empty-term check (line 114) precedes everything; credential
acquisition (line 123) sits OUTSIDE the `try`, so its failure propagates; the
`except HttpError` boundary converts only `HttpError` from the guarded region;
per-file extraction never throws (its own `except Exception` absorbs). -/
def searchDriveByContent (eng : RegexEngine) (o : DriveOracle) (searchTerm : String)
    (folderId : Option String) (fileTypes : List String)
    (caseSensitive useRegex : Bool) (maxResults snippetLength : Nat) :
    Except PyError ToolResponse × List RemoteCall :=
  if stripIsEmpty searchTerm then
    (.ok (.errorPayload "Search term cannot be empty"), [])
  else
    match o.credsResult with
    | .error e => (.error e, [.getCredentials])
    | .ok () =>
      match o.buildResult with
      | .error e => (catchHttp ToolResponse.errorPayload e, [.getCredentials, .buildService])
      | .ok () =>
        let q := buildQuery searchTerm folderId fileTypes caseSensitive useRegex
        match o.listResult with
        | .error e =>
          (catchHttp ToolResponse.errorPayload e,
           [.getCredentials, .buildService, .indexQuery q maxResults])
        | .ok files =>
          let entries := processFiles eng o.fetchResult searchTerm.toList
            caseSensitive useRegex snippetLength files
          (.ok (.searchResults entries entries.length searchTerm q),
           [.getCredentials, .buildService, .indexQuery q maxResults]
             ++ (files.filter (fun f => isSupportedMime f.mimeType)).map
                  (fun f => .fileContentFetch f.id))

/-- Outcomes of the remote world for one `search_within_file_content`
invocation: credential acquisition (line 375, outside the `try`), `build`
(line 377), the metadata fetch (lines 380-383), and the file's extraction
attempt. -/
structure FileOracle where
  credsResult : Except PyError Unit
  buildResult : Except PyError Unit
  metadataResult : Except PyError FileMeta
  fetchResult : Except PyError (Option (List Char))

/-- `search_within_file_content` (lines 361-406) over a `FileOracle`.  After
the metadata fetch resolves, the result dictionary is returned unconditionally
from the pipeline's `ContentInfo` — including the zero-match case. -/
def searchWithinFileContent (eng : RegexEngine) (o : FileOracle) (fileId : String)
    (searchTerm : String) (caseSensitive useRegex : Bool) (snippetLength : Nat) :
    Except PyError ToolResponse :=
  match o.credsResult with
  | .error e => .error e
  | .ok () =>
    match o.buildResult with
    | .error e => catchHttp ToolResponse.errorPayload e
    | .ok () =>
      match o.metadataResult with
      | .error e => catchHttp ToolResponse.errorPayload e
      | .ok meta =>
        let info := extractFileContentForSearch eng meta.mimeType o.fetchResult
          searchTerm.toList caseSensitive useRegex snippetLength
        .ok (.fileResult fileId meta.name meta.mimeType meta.createdTime
          meta.modifiedTime meta.size info.has_matches info.match_count info.snippets)

/-! ### Helper lemmas -/

/-- Every span recorded by the literal-search loop has length exactly
`termLen`: the loop appends `(pos, pos + len(search_term))`. -/
theorem literalLoopF_span_len (contentText searchText : List Char) (termLen : Nat) :
    ∀ (fuel start s e : Nat),
      (s, e) ∈ literalLoopF contentText searchText termLen start fuel → e = s + termLen := by
  intro fuel
  induction fuel with
  | zero => intro start s e h; simp [literalLoopF] at h
  | succ n ih =>
    intro start s e h
    unfold literalLoopF at h
    cases hf : pyFind contentText searchText start with
    | none => rw [hf] at h; simp at h
    | some pos =>
      rw [hf] at h
      rcases List.mem_cons.mp h with h1 | h2
      · cases h1; rfl
      · exact ih (pos + 1) s e h2

/-- Every literal-mode span has length exactly the original term's length. -/
theorem findLiteralMatches_span_len (content searchTerm : List Char) (caseSensitive : Bool)
    (s e : Nat) (h : (s, e) ∈ findLiteralMatches content searchTerm caseSensitive) :
    e = s + searchTerm.length := by
  unfold findLiteralMatches at h
  exact literalLoopF_span_len _ _ _ _ _ s e h

/-- An extraction attempt that raised is absorbed into the zero result
(the `except Exception` handler of `_extract_file_content_for_search`). -/
theorem extract_error_zero (eng : RegexEngine) (mime : String) (err : PyError)
    (searchTerm : List Char) (caseSensitive useRegex : Bool) (snippetLength : Nat) :
    extractFileContentForSearch eng mime (.error err) searchTerm caseSensitive useRegex
      snippetLength = zeroContentInfo := by
  unfold extractFileContentForSearch
  cases h : isSupportedMime mime <;> simp [h]

/-- `has_matches` is set exactly when `match_count` is positive: the success
branch stores `len(matches)` for a non-empty `matches`, and every other branch
returns the zero result. -/
theorem extract_has_matches_pos (eng : RegexEngine) (mime : String)
    (fetch : Except PyError (Option (List Char))) (searchTerm : List Char)
    (caseSensitive useRegex : Bool) (snippetLength : Nat) :
    (extractFileContentForSearch eng mime fetch searchTerm caseSensitive useRegex
        snippetLength).has_matches = true
      ↔ 0 < (extractFileContentForSearch eng mime fetch searchTerm caseSensitive useRegex
        snippetLength).match_count := by
  unfold extractFileContentForSearch
  cases hs : (if isSupportedMime mime then fetch else Except.ok none) with
  | error e => simp [zeroContentInfo]
  | ok co =>
    cases co with
    | none => simp [zeroContentInfo]
    | some content =>
      by_cases hc : content.isEmpty
      · simp [hc, zeroContentInfo]
      · by_cases hm : (findContentMatches eng content searchTerm caseSensitive useRegex).isEmpty
        · simp [hc, hm, zeroContentInfo]
        · have hm2 : findContentMatches eng content searchTerm caseSensitive useRegex ≠ [] := by
            simpa [List.isEmpty_iff] using hm
          simp [hc, hm, List.length_pos, hm2]

/-! ### Claim C5 -/

/-- Claim C5: in literal mode matches are found by repeated forward search
advancing to `occurrence_start + 1`, so overlapping occurrences are reported:
searching `"aa"` in `"aaa"` (case sensitive, no regex) yields exactly the two
spans `(0,2)` and `(1,3)`, in left-to-right order — for any regex engine,
since the literal branch never consults it. -/
theorem c5_theorem :
    ∀ eng : RegexEngine,
      findContentMatches eng "aaa".toList "aa".toList true false = [(0, 2), (1, 3)] := by
  intro eng
  have h : findLiteralMatches "aaa".toList "aa".toList true = [(0, 2), (1, 3)] := by decide
  simpa [findContentMatches] using h

/-! ### Claim C1 -/

/-- Claim C1 is FALSE on the code: for the invalid pattern `"[invalid"`
(unterminated character class) searched in the text `"[invalid"` in regex
mode, `_find_content_matches` does not return an empty sequence — it falls
back to literal substring search and reports the span `(0, 8)`. -/
theorem c1_counterexample :
    pyRegexModel.compiles "[invalid".toList = false
      ∧ findContentMatches pyRegexModel "[invalid".toList "[invalid".toList true true
          = [(0, 8)]
      ∧ findContentMatches pyRegexModel "[invalid".toList "[invalid".toList true true
          ≠ [] := by
  refine ⟨by decide, by decide, by decide⟩

/-- Claim C1 as amended: in regex mode, if the pattern fails to compile the
match finder does not raise and falls back to literal substring search — the
result equals the literal-mode result, so it is empty exactly when the term
does not occur as a literal substring. -/
theorem c1_theorem (eng : RegexEngine) (content searchTerm : List Char)
    (caseSensitive : Bool) (h : eng.compiles searchTerm = false) :
    findContentMatches eng content searchTerm caseSensitive true
      = findLiteralMatches content searchTerm caseSensitive := by
  simp [findContentMatches, h]

/-- Concrete instance of the amended C1 at the invalid pattern `"[invalid"`. -/
theorem c1_witness :
    pyRegexModel.compiles "[invalid".toList = false
      ∧ findContentMatches pyRegexModel "sample text".toList "[invalid".toList false true
          = findLiteralMatches "sample text".toList "[invalid".toList false :=
  ⟨by decide, c1_theorem pyRegexModel "sample text".toList "[invalid".toList false (by decide)⟩

/-! ### Claim C10 -/

/-- Claim C10: when extraction yields `None` or the empty string, the per-file
search short-circuits to the zero result without invoking the match finder —
for EVERY regex engine (even one reporting matches in empty content), every
mime type, term and flag combination, the result is
`{has_matches: false, snippets: [], match_count: 0}`, and the empty-string
case is indistinguishable from the extraction-failure case. -/
theorem c10_theorem :
    ∀ (eng : RegexEngine) (mime : String) (searchTerm : List Char)
      (caseSensitive useRegex : Bool) (snippetLength : Nat),
      extractFileContentForSearch eng mime (.ok none) searchTerm caseSensitive useRegex
          snippetLength = zeroContentInfo
        ∧ extractFileContentForSearch eng mime (.ok (some [])) searchTerm caseSensitive
            useRegex snippetLength
          = extractFileContentForSearch eng mime (.ok none) searchTerm caseSensitive
              useRegex snippetLength := by
  intro eng mime searchTerm caseSensitive useRegex snippetLength
  constructor <;>
    · unfold extractFileContentForSearch
      cases h : isSupportedMime mime <;> simp [h]

/-! ### Claim C4 -/

/-- Claim C4 is FALSE on the code: the single-file variant does not
pre-validate the search term, and for the empty term the literal-mode finder
produces zero-width spans with `start = end`.  Searching the empty term in the
one-character text `"a"` yields the spans `(0,0)` and `(1,1)`, and through
`search_within_file_content` this surfaces as a success payload whose
snippets have `match_start = match_end`. -/
theorem c4_counterexample :
    findContentMatches pyRegexModel "a".toList "".toList true false = [(0, 0), (1, 1)]
      ∧ ¬ (0 : Nat) < 0
      ∧ searchWithinFileContent pyRegexModel
          ⟨.ok (), .ok (), .ok ⟨"f1", "doc", "text/plain", none, none, none, []⟩,
            .ok (some "a".toList)⟩ "f1" "" false false 200
        = .ok (.fileResult "f1" "doc" "text/plain" none none none true 2
            [⟨['a'], 0, 0, 0, 0⟩, ⟨['a'], 1, 1, 1, 1⟩]) := by
  refine ⟨by decide, by decide, by rfl⟩

/-- Claim C4 as amended: every literal-mode span satisfies
`end = start + length(term)` — so `start < end` holds exactly when the search
term is non-empty (the empty term, reachable through the single-file variant,
yields zero-width spans) — and in regex mode, for a pattern that compiles, the
finder returns exactly the engine's reported spans. -/
theorem c4_theorem :
    (∀ (eng : RegexEngine) (content searchTerm : List Char) (caseSensitive : Bool)
       (s e : Nat), (s, e) ∈ findContentMatches eng content searchTerm caseSensitive false →
         e = s + searchTerm.length)
    ∧ (∀ (eng : RegexEngine) (content searchTerm : List Char) (caseSensitive : Bool)
       (s e : Nat), (s, e) ∈ findContentMatches eng content searchTerm caseSensitive false →
         searchTerm ≠ [] → s < e)
    ∧ (∀ (eng : RegexEngine) (content searchTerm : List Char) (caseSensitive : Bool),
         eng.compiles searchTerm = true →
           findContentMatches eng content searchTerm caseSensitive true
             = eng.findAll searchTerm caseSensitive content) := by
  have key : ∀ (eng : RegexEngine) (content searchTerm : List Char) (caseSensitive : Bool)
      (s e : Nat), (s, e) ∈ findContentMatches eng content searchTerm caseSensitive false →
        e = s + searchTerm.length := by
    intro eng content searchTerm caseSensitive s e h
    simp only [findContentMatches, Bool.false_eq_true, if_false] at h
    exact findLiteralMatches_span_len content searchTerm caseSensitive s e h
  refine ⟨key, ?_, ?_⟩
  · intro eng content searchTerm caseSensitive s e h hne
    have := key eng content searchTerm caseSensitive s e h
    subst this
    have : 0 < searchTerm.length := List.length_pos.mpr hne
    omega
  · intro eng content searchTerm caseSensitive h
    simp [findContentMatches, h]

/-- Concrete instance of the amended C4: the span `(1,2)` found for term
`"b"` in `"abc"` has length `1` and `start < end`; for the compiling pattern
`"b"` the regex branch defers to the engine. -/
theorem c4_witness :
    ((1, 2) ∈ findContentMatches pyRegexModel "abc".toList "b".toList true false
      ∧ 2 = 1 + "b".toList.length
      ∧ (1 : Nat) < 2)
    ∧ (pyRegexModel.compiles "b".toList = true
      ∧ findContentMatches pyRegexModel "c".toList "b".toList true true
          = pyRegexModel.findAll "b".toList true "c".toList) := by
  have hmem : (1, 2) ∈ findContentMatches pyRegexModel "abc".toList "b".toList true false := by
    decide
  refine ⟨⟨hmem, ?_, ?_⟩, ⟨by decide, ?_⟩⟩
  · exact c4_theorem.1 pyRegexModel "abc".toList "b".toList true 1 2 hmem
  · exact c4_theorem.2.1 pyRegexModel "abc".toList "b".toList true 1 2 hmem (by decide)
  · exact c4_theorem.2.2 pyRegexModel "c".toList "b".toList true (by decide)

/-! ### Claim C6 -/

/-- The append-fold of `_generate_search_snippets` builds exactly the map of
the per-span snippet over the input spans. -/
theorem generateSearchSnippets_eq_map (content : List Char) (spans : List (Nat × Nat))
    (snippetLength : Nat) :
    generateSearchSnippets content spans snippetLength
      = spans.map (snippetFor content (snippetLength / 2)) := by
  unfold generateSearchSnippets
  suffices h : ∀ (l : List (Nat × Nat)) (acc : List Snippet),
      l.foldl (fun acc m => acc ++ [snippetFor content (snippetLength / 2) m]) acc
        = acc ++ l.map (snippetFor content (snippetLength / 2)) by
    simpa using h spans []
  intro l
  induction l with
  | nil => intro acc; simp
  | cons m t ih => intro acc; simp [ih]

/-- Claim C6: the snippet builder produces exactly one snippet per input span,
in the same order; the `i`-th snippet is computed with
`half = snippet_length / 2`, `window_start = start - half` (truncated at `0`),
`window_end = min (length text) (end + half)`, text slice
`text[window_start:window_end]`, window-relative positions
`start - window_start` and `end - window_start` (over ℤ, as in the source),
and the absolute offsets carried through unmodified; windows are never merged
or deduplicated. -/
theorem c6_theorem :
    ∀ (content : List Char) (spans : List (Nat × Nat)) (snippetLength : Nat),
      (generateSearchSnippets content spans snippetLength).length = spans.length
      ∧ ∀ (i : Nat) (h : i < spans.length),
          (generateSearchSnippets content spans snippetLength)[i]? =
            some
              { text :=
                  (content.drop ((spans.get ⟨i, h⟩).1 - snippetLength / 2)).take
                    (min content.length ((spans.get ⟨i, h⟩).2 + snippetLength / 2)
                      - ((spans.get ⟨i, h⟩).1 - snippetLength / 2))
                match_start := ((spans.get ⟨i, h⟩).1 : Int)
                  - (((spans.get ⟨i, h⟩).1 - snippetLength / 2 : Nat) : Int)
                match_end := ((spans.get ⟨i, h⟩).2 : Int)
                  - (((spans.get ⟨i, h⟩).1 - snippetLength / 2 : Nat) : Int)
                original_start := (spans.get ⟨i, h⟩).1
                original_end := (spans.get ⟨i, h⟩).2 } := by
  intro content spans snippetLength
  rw [generateSearchSnippets_eq_map]
  constructor
  · exact List.length_map spans _
  · intro i h
    rw [List.getElem?_map, List.getElem?_eq_getElem h]
    rfl

/-- Concrete instance of C6, the spec's boundary-clamp example: text of length
5, one span covering the whole text, snippet length 10 — the snippet is the
entire text with `match_start = 0`, `match_end = 5`. -/
theorem c6_witness :
    (generateSearchSnippets "abcde".toList [(0, 5)] 10).length = 1
      ∧ (generateSearchSnippets "abcde".toList [(0, 5)] 10)[0]? =
          some ⟨"abcde".toList, 0, 5, 0, 5⟩ := by
  have h := c6_theorem "abcde".toList [(0, 5)] 10
  refine ⟨h.1, ?_⟩
  simpa using h.2 0 (by decide)

/-! ### Claim C8 -/

/-- Claim C8: a search term whose trimmed form is empty is rejected by
`search_drive_by_content` with the structured validation error before any
remote call — the remote-call trace is empty, so neither credential
acquisition nor the index query is issued, whatever the remote world would
have answered. -/
theorem c8_theorem (eng : RegexEngine) (o : DriveOracle) (searchTerm : String)
    (folderId : Option String) (fileTypes : List String)
    (caseSensitive useRegex : Bool) (maxResults snippetLength : Nat)
    (h : stripIsEmpty searchTerm = true) :
    searchDriveByContent eng o searchTerm folderId fileTypes caseSensitive useRegex
        maxResults snippetLength
      = (.ok (.errorPayload "Search term cannot be empty"), []) := by
  simp [searchDriveByContent, h]

/-- Concrete instance of C8 at the whitespace-only term `"  "`, against an
oracle that would have answered every call successfully. -/
theorem c8_witness :
    stripIsEmpty "  " = true
      ∧ searchDriveByContent pyRegexModel
          ⟨.ok (), .ok (), .ok [], fun _ => .ok none⟩ "  " none [] false false 50 200
        = (.ok (.errorPayload "Search term cannot be empty"), []) :=
  ⟨by decide,
   c8_theorem pyRegexModel ⟨.ok (), .ok (), .ok [], fun _ => .ok none⟩ "  " none []
     false false 50 200 (by decide)⟩

/-! ### Claim C3 -/

/-- Claim C3: a per-document extraction error is isolated — the failing
candidate contributes nothing to the result list (it is omitted), the
remaining candidates are processed exactly as if it were absent, and the
orchestrator still returns a payload (never a raised exception), whatever the
other candidates' outcomes. -/
theorem c3_theorem (eng : RegexEngine)
    (fetch : String → Except PyError (Option (List Char))) (searchTerm : String)
    (caseSensitive useRegex : Bool) (snippetLength : Nat)
    (a : FileMeta) (rest : List FileMeta) (err : PyError)
    (h : fetch a.id = .error err) :
    processFiles eng fetch searchTerm.toList caseSensitive useRegex snippetLength (a :: rest)
      = processFiles eng fetch searchTerm.toList caseSensitive useRegex snippetLength rest
    ∧ ∀ (folderId : Option String) (fileTypes : List String) (maxResults : Nat),
        ∃ r, (searchDriveByContent eng ⟨.ok (), .ok (), .ok (a :: rest), fetch⟩ searchTerm
          folderId fileTypes caseSensitive useRegex maxResults snippetLength).1 = .ok r := by
  have hz : extractFileContentForSearch eng a.mimeType (fetch a.id) searchTerm.toList
      caseSensitive useRegex snippetLength = zeroContentInfo := by
    rw [h]
    exact extract_error_zero eng a.mimeType err searchTerm.toList caseSensitive useRegex
      snippetLength
  constructor
  · have hz2 : extractFileContentForSearch eng a.mimeType (fetch a.id) searchTerm.data
        caseSensitive useRegex snippetLength = zeroContentInfo := hz
    simp [processFiles, hz, hz2, zeroContentInfo]
  · intro folderId fileTypes maxResults
    by_cases hs : stripIsEmpty searchTerm = true
    · exact ⟨.errorPayload "Search term cannot be empty", by simp [searchDriveByContent, hs]⟩
    · refine ⟨.searchResults
        (processFiles eng fetch searchTerm.toList caseSensitive useRegex snippetLength
          (a :: rest))
        (processFiles eng fetch searchTerm.toList caseSensitive useRegex snippetLength
          (a :: rest)).length
        searchTerm (buildQuery searchTerm folderId fileTypes caseSensitive useRegex), ?_⟩
      simp [searchDriveByContent, hs]

/-- Concrete instance of C3: candidate `A`'s content fetch throws, candidate
`B`'s matches — processing `[A, B]` equals processing `[B]` alone, and the
orchestrator still answers. -/
theorem c3_witness :
    processFiles pyRegexModel
        (fun fid => if fid = "A" then .error (.otherError "boom")
          else .ok (some "hit".toList))
        "hit".toList false false 10
        [⟨"A", "docA", "text/plain", none, none, none, []⟩,
         ⟨"B", "docB", "text/plain", none, none, none, []⟩]
      = processFiles pyRegexModel
          (fun fid => if fid = "A" then .error (.otherError "boom")
            else .ok (some "hit".toList))
          "hit".toList false false 10
          [⟨"B", "docB", "text/plain", none, none, none, []⟩]
    ∧ ∃ r, (searchDriveByContent pyRegexModel
        ⟨.ok (), .ok (),
          .ok [⟨"A", "docA", "text/plain", none, none, none, []⟩,
               ⟨"B", "docB", "text/plain", none, none, none, []⟩],
          fun fid => if fid = "A" then .error (.otherError "boom")
            else .ok (some "hit".toList)⟩
        "hit" none [] false false 50 10).1 = .ok r := by
  have h := c3_theorem pyRegexModel
    (fun fid => if fid = "A" then .error (.otherError "boom") else .ok (some "hit".toList))
    "hit" false false 10
    ⟨"A", "docA", "text/plain", none, none, none, []⟩
    [⟨"B", "docB", "text/plain", none, none, none, []⟩]
    (.otherError "boom") rfl
  exact ⟨h.1, h.2 none [] 50⟩

/-! ### Claim C7 -/

/-- The result list described by the spec: exactly the candidates whose match
count is positive, in the order the index returned them, each with its
snippets and match count. -/
def keptEntries (eng : RegexEngine) (fetch : String → Except PyError (Option (List Char)))
    (searchTerm : List Char) (caseSensitive useRegex : Bool) (snippetLength : Nat)
    (files : List FileMeta) : List ResultEntry :=
  files.filterMap (fun f =>
    let info := extractFileContentForSearch eng f.mimeType (fetch f.id) searchTerm
      caseSensitive useRegex snippetLength
    if 0 < info.match_count then
      some ⟨f.id, f.name, f.mimeType, f.createdTime, f.modifiedTime, f.size, f.parents,
        info.snippets, info.match_count⟩
    else none)

/-- The sequential candidate loop computes exactly the spec's order-preserving
filter on positive match count. -/
theorem processFiles_eq_keptEntries (eng : RegexEngine)
    (fetch : String → Except PyError (Option (List Char))) (searchTerm : List Char)
    (caseSensitive useRegex : Bool) (snippetLength : Nat) :
    ∀ files : List FileMeta,
      processFiles eng fetch searchTerm caseSensitive useRegex snippetLength files
        = keptEntries eng fetch searchTerm caseSensitive useRegex snippetLength files := by
  intro files
  induction files with
  | nil => rfl
  | cons f rest ih =>
    have hiff := extract_has_matches_pos eng f.mimeType (fetch f.id) searchTerm
      caseSensitive useRegex snippetLength
    simp only [processFiles, keptEntries, List.filterMap_cons] at ih ⊢
    by_cases hm : (extractFileContentForSearch eng f.mimeType (fetch f.id) searchTerm
        caseSensitive useRegex snippetLength).has_matches = true
    · have hpos := hiff.mp hm
      simp [hm, hpos, ih]
    · have hpos : ¬ 0 < (extractFileContentForSearch eng f.mimeType (fetch f.id) searchTerm
          caseSensitive useRegex snippetLength).match_count := fun hp => hm (hiff.mpr hp)
      simp [hm, hpos, ih]

/-- Claim C7: with a successful index query, the orchestrator's payload
carries exactly the candidates with a positive match count, in index order,
and `total_matches` is the number of kept documents (not the total span
count), echoing the term and the resolved query string. -/
theorem c7_theorem (eng : RegexEngine) (o : DriveOracle) (searchTerm : String)
    (folderId : Option String) (fileTypes : List String) (caseSensitive useRegex : Bool)
    (maxResults snippetLength : Nat) (files : List FileMeta)
    (hterm : stripIsEmpty searchTerm = false)
    (hc : o.credsResult = .ok ()) (hb : o.buildResult = .ok ())
    (hl : o.listResult = .ok files) :
    (searchDriveByContent eng o searchTerm folderId fileTypes caseSensitive useRegex
        maxResults snippetLength).1
      = .ok (.searchResults
          (keptEntries eng o.fetchResult searchTerm.toList caseSensitive useRegex
            snippetLength files)
          (keptEntries eng o.fetchResult searchTerm.toList caseSensitive useRegex
            snippetLength files).length
          searchTerm (buildQuery searchTerm folderId fileTypes caseSensitive useRegex)) := by
  simp [searchDriveByContent, hterm, hc, hb, hl, processFiles_eq_keptEntries]

/-- Concrete instance of C7: of two candidates only `"B"` matches; the result
list is exactly `B`'s entry and `total_matches` is `1` even though match
positions inside `B` could be several. -/
theorem c7_witness :
    (searchDriveByContent pyRegexModel
        ⟨.ok (), .ok (),
          .ok [⟨"A", "docA", "text/plain", none, none, none, []⟩,
               ⟨"B", "docB", "text/plain", none, none, none, []⟩],
          fun fid => if fid = "A" then .ok (some "xxxx".toList)
            else .ok (some "hit here".toList)⟩
        "hit" none [] false false 50 10).1
      = .ok (.searchResults
          [⟨"B", "docB", "text/plain", none, none, none, [],
            [⟨"hit here".toList, 0, 3, 0, 3⟩], 1⟩]
          1 "hit" "fullText contains 'hit'") := by
  have h := c7_theorem pyRegexModel
    ⟨.ok (), .ok (),
      .ok [⟨"A", "docA", "text/plain", none, none, none, []⟩,
           ⟨"B", "docB", "text/plain", none, none, none, []⟩],
      fun fid => if fid = "A" then .ok (some "xxxx".toList)
        else .ok (some "hit here".toList)⟩
    "hit" none [] false false 50 10
    [⟨"A", "docA", "text/plain", none, none, none, []⟩,
     ⟨"B", "docB", "text/plain", none, none, none, []⟩]
    (by decide) rfl rfl rfl
  rw [h]
  rfl

/-! ### Claim C9 -/

/-- Claim C9: once the identifier resolves to metadata, the single-file
variant returns the success-shaped payload built from the pipeline's result —
including the `has_matches = false, match_count = 0` case — and that payload
is distinct (as a JSON shape) from every structured error payload. -/
theorem c9_theorem (eng : RegexEngine) (o : FileOracle) (fileId searchTerm : String)
    (caseSensitive useRegex : Bool) (snippetLength : Nat) (meta : FileMeta)
    (hc : o.credsResult = .ok ()) (hb : o.buildResult = .ok ())
    (hm : o.metadataResult = .ok meta) :
    searchWithinFileContent eng o fileId searchTerm caseSensitive useRegex snippetLength
      = .ok (.fileResult fileId meta.name meta.mimeType meta.createdTime meta.modifiedTime
          meta.size
          (extractFileContentForSearch eng meta.mimeType o.fetchResult searchTerm.toList
            caseSensitive useRegex snippetLength).has_matches
          (extractFileContentForSearch eng meta.mimeType o.fetchResult searchTerm.toList
            caseSensitive useRegex snippetLength).match_count
          (extractFileContentForSearch eng meta.mimeType o.fetchResult searchTerm.toList
            caseSensitive useRegex snippetLength).snippets)
    ∧ ∀ msg : String,
        (ToolResponse.fileResult fileId meta.name meta.mimeType meta.createdTime
          meta.modifiedTime meta.size
          (extractFileContentForSearch eng meta.mimeType o.fetchResult searchTerm.toList
            caseSensitive useRegex snippetLength).has_matches
          (extractFileContentForSearch eng meta.mimeType o.fetchResult searchTerm.toList
            caseSensitive useRegex snippetLength).match_count
          (extractFileContentForSearch eng meta.mimeType o.fetchResult searchTerm.toList
            caseSensitive useRegex snippetLength).snippets)
        ≠ .errorPayload msg := by
  constructor
  · simp [searchWithinFileContent, hc, hb, hm]
  · intro msg hcontra
    exact ToolResponse.noConfusion hcontra

/-- Concrete instance of C9: a resolvable file whose extraction yields no
content produces the zero-match success payload, not an error payload. -/
theorem c9_witness :
    searchWithinFileContent pyRegexModel
        ⟨.ok (), .ok (), .ok ⟨"f1", "empty", "text/plain", none, none, none, []⟩, .ok none⟩
        "f1" "needle" false false 200
      = .ok (.fileResult "f1" "empty" "text/plain" none none none false 0 [])
    ∧ (ToolResponse.fileResult "f1" "empty" "text/plain" none none none false 0 []
        ≠ .errorPayload "An error occurred: x") := by
  have h := c9_theorem pyRegexModel
    ⟨.ok (), .ok (), .ok ⟨"f1", "empty", "text/plain", none, none, none, []⟩, .ok none⟩
    "f1" "needle" false false 200 ⟨"f1", "empty", "text/plain", none, none, none, []⟩
    rfl rfl rfl
  exact ⟨h.1, h.2 "An error occurred: x"⟩

/-! ### Claim C2 -/

/-- An `HttpError` reaching the tool boundary is converted to the uniform
error payload, hence to a returned value. -/
theorem catchHttp_ok (e : PyError) (h : e.isHttp = true) :
    ∃ r, catchHttp ToolResponse.errorPayload e = .ok r := by
  cases e with
  | httpError m => exact ⟨.errorPayload ("An error occurred: " ++ m), rfl⟩
  | otherError m => simp [PyError.isHttp] at h

/-- Claim C2 is FALSE on the code: credential acquisition happens OUTSIDE the
`try` block, so a failure there (e.g. an interactive-auth or token-refresh
error, which is not an `HttpError`) propagates to the caller as a raw
exception instead of a JSON payload — here for `search_within_file_content`
with every other remote call arranged to succeed. -/
theorem c2_counterexample :
    searchWithinFileContent pyRegexModel
        ⟨.error (.otherError "credential refresh failed"), .ok (),
          .ok ⟨"f1", "doc", "text/plain", none, none, none, []⟩, .ok none⟩
        "f1" "term" false false 200
      = .error (.otherError "credential refresh failed") := rfl

/-- Claim C2 as amended: both content-search tools return a JSON payload —
the declared success schema or the uniform error shape — for every outcome of
the guarded remote calls, PROVIDED credential acquisition succeeds and every
exception raised by service construction, the index query, or the metadata
fetch is an `HttpError`; per-document content download and extraction
failures are always absorbed.  (A credential-acquisition failure, or a
non-`HttpError` exception from the guarded calls, propagates raw.) -/
theorem c2_theorem (eng : RegexEngine) (oD : DriveOracle) (oF : FileOracle)
    (searchTerm : String) (folderId : Option String) (fileTypes : List String)
    (caseSensitive useRegex : Bool) (maxResults snippetLength : Nat)
    (fileId fileTerm : String) (caseSensitive2 useRegex2 : Bool) (snippetLength2 : Nat)
    (hdc : oD.credsResult = .ok ()) (hdb : okOrHttp oD.buildResult = true)
    (hdl : okOrHttp oD.listResult = true)
    (hfc : oF.credsResult = .ok ()) (hfb : okOrHttp oF.buildResult = true)
    (hfm : okOrHttp oF.metadataResult = true) :
    (∃ r, (searchDriveByContent eng oD searchTerm folderId fileTypes caseSensitive useRegex
        maxResults snippetLength).1 = .ok r)
    ∧ (∃ r, searchWithinFileContent eng oF fileId fileTerm caseSensitive2 useRegex2
        snippetLength2 = .ok r) := by
  constructor
  · by_cases hs : stripIsEmpty searchTerm = true
    · exact ⟨.errorPayload "Search term cannot be empty", by simp [searchDriveByContent, hs]⟩
    · cases hbuild : oD.buildResult with
      | error e =>
        rw [hbuild] at hdb
        obtain ⟨r, hr⟩ := catchHttp_ok e hdb
        exact ⟨r, by simp [searchDriveByContent, hs, hdc, hbuild, hr]⟩
      | ok u =>
        cases u
        cases hlist : oD.listResult with
        | error e =>
          rw [hlist] at hdl
          obtain ⟨r, hr⟩ := catchHttp_ok e hdl
          exact ⟨r, by simp [searchDriveByContent, hs, hdc, hbuild, hlist, hr]⟩
        | ok files =>
          refine ⟨.searchResults
            (processFiles eng oD.fetchResult searchTerm.toList caseSensitive useRegex
              snippetLength files)
            (processFiles eng oD.fetchResult searchTerm.toList caseSensitive useRegex
              snippetLength files).length
            searchTerm (buildQuery searchTerm folderId fileTypes caseSensitive useRegex), ?_⟩
          simp [searchDriveByContent, hs, hdc, hbuild, hlist]
  · cases hbuild : oF.buildResult with
    | error e =>
      rw [hbuild] at hfb
      obtain ⟨r, hr⟩ := catchHttp_ok e hfb
      exact ⟨r, by simp [searchWithinFileContent, hfc, hbuild, hr]⟩
    | ok u =>
      cases u
      cases hmeta : oF.metadataResult with
      | error e =>
        rw [hmeta] at hfm
        obtain ⟨r, hr⟩ := catchHttp_ok e hfm
        exact ⟨r, by simp [searchWithinFileContent, hfc, hbuild, hmeta, hr]⟩
      | ok meta =>
        refine ⟨.fileResult fileId meta.name meta.mimeType meta.createdTime
          meta.modifiedTime meta.size
          (extractFileContentForSearch eng meta.mimeType oF.fetchResult fileTerm.toList
            caseSensitive2 useRegex2 snippetLength2).has_matches
          (extractFileContentForSearch eng meta.mimeType oF.fetchResult fileTerm.toList
            caseSensitive2 useRegex2 snippetLength2).match_count
          (extractFileContentForSearch eng meta.mimeType oF.fetchResult fileTerm.toList
            caseSensitive2 useRegex2 snippetLength2).snippets, ?_⟩
        simp [searchWithinFileContent, hfc, hbuild, hmeta]

/-- Concrete instance of the amended C2: the drive search meets an HTTP-level
index-query failure, the single-file search an HTTP-level metadata failure;
both still return payloads. -/
theorem c2_witness :
    (∃ r, (searchDriveByContent pyRegexModel
        ⟨.ok (), .ok (), .error (.httpError "HTTP 500"), fun _ => .ok none⟩
        "hit" none [] false false 50 200).1 = .ok r)
    ∧ (∃ r, searchWithinFileContent pyRegexModel
        ⟨.ok (), .ok (), .error (.httpError "HTTP 404"), .ok none⟩
        "f1" "hit" false false 200 = .ok r) :=
  c2_theorem pyRegexModel
    ⟨.ok (), .ok (), .error (.httpError "HTTP 500"), fun _ => .ok none⟩
    ⟨.ok (), .ok (), .error (.httpError "HTTP 404"), .ok none⟩
    "hit" none [] false false 50 200 "f1" "hit" false false 200
    rfl rfl rfl rfl rfl rfl

end DriveSearch
